import Mathlib

/-!
Verification of the zendesk-classifier repository.

Shallow embedding of the Python sources:
  - `src/app/classifier.py`   (categories, rule-based / LLM classifiers, JSON extraction)
  - `src/app/zendesk.py`      (conversation assembly)
  - `src/api/zendesk_webhook.py` (idempotency guard, response mapping loader, endpoint)

Python strings are modelled by `String`, `None`-able values by `Option`,
raising code by `Except`.  External library calls (json.loads, the OpenAI
client, datetime parsing, the filesystem, HTTP fetches) are parameters of the
embedded functions.  Only the ASCII behaviour of `str.lower` / `str.strip`
is modelled; every string the program compares against is ASCII.
-/

/-! ## Python string primitives -/

/-- Model of Python `str.lower()` restricted to ASCII: maps `A`-`Z` (code
points 65-90) to `a`-`z` and leaves everything else unchanged. -/
def lowerChar (c : Char) : Char :=
  if 65 ≤ c.toNat ∧ c.toNat ≤ 90 then Char.ofNat (c.toNat + 32) else c

/-- Python `s.lower()` (ASCII fragment). -/
def str_lower (s : String) : String := ⟨s.data.map lowerChar⟩

/-- `true` when the string contains no ASCII upper-case letter; this is what
"all keys are lowercased" means observationally. -/
def hasNoUpper (s : String) : Bool :=
  s.data.all (fun c => !(65 ≤ c.toNat && c.toNat ≤ 90))

/-- Python `s.strip()`: drop leading and trailing whitespace. -/
def pyStrip (s : String) : String :=
  ⟨((s.data.dropWhile Char.isWhitespace).reverse.dropWhile Char.isWhitespace).reverse⟩

/-- Python `a or b` where `a` is an optional string and the empty string is
falsy: yields `a`'s value when it is a non-empty string, else `b`. -/
def pyOrStr (a : Option String) (b : String) : String :=
  match a with
  | some s => if s = "" then b else s
  | none => b

/-- Python `needle in hay` on lists of characters (substring containment). -/
def isSubList (needle : List Char) : List Char → Bool
  | [] => needle.isEmpty
  | c :: rest => needle.isPrefixOf (c :: rest) || isSubList needle rest

/-- Python `needle in hay` for strings. -/
def containsSub (hay needle : String) : Bool := isSubList needle.data hay.data

/-- Python `s.replace('Z', '+00:00')` (used on ISO timestamps); the pattern is
a single character, so per-character substitution is exact. -/
def replaceZ (s : String) : String :=
  ⟨s.data.flatMap (fun c => if c = 'Z' then "+00:00".data else [c])⟩

/-! ## JSON values as Python objects

`json.loads` produces Python values; the embedded classifier only inspects
them through `dict.get`, `int(...)` and comparison with a set of strings, so
the payloads of lists/dicts nested below the top level are elided (`int()`
raises on them and they never equal a category string regardless). JSON
numbers are modelled as integers; non-integral numbers are outside the model
(floating point). -/

inductive PyVal where
  | pstr (s : String)
  | pint (n : Int)
  | pbool (b : Bool)
  | pnull
  | plist
  | pdict
deriving DecidableEq

/-- A JSON object as returned by `json.loads`: key/value pairs. -/
def JObj := List (String × PyVal)

/-- Python `data.get(key, default)`. -/
def jget (d : JObj) (k : String) (default : PyVal) : PyVal :=
  match d.lookup k with
  | some v => v
  | none => default

/-- Python `int(v)`: succeeds on ints, bools and strings spelling an integer
(after stripping whitespace); raises `TypeError`/`ValueError` otherwise. -/
def pyInt : PyVal → Except Unit Int
  | .pint n => .ok n
  | .pbool b => .ok (if b then 1 else 0)
  | .pstr s =>
      match (pyStrip s).toInt? with
      | some n => .ok n
      | none => .error ()
  | _ => .error ()

/-! ## src/app/classifier.py -/

/-- `CATEGORIES` (classifier.py lines 87-100): the fixed closed category set.
Python uses a `set`; membership is all that is ever asked of it. -/
def CATEGORIES : List String :=
  ["refund", "regeneration", "sppam", "pictures-not-received-spam", "invoice",
   "reupload", "influencers", "team-info", "feedback", "ghost-email",
   "linkedin", "miscellaneous"]

/-- The `ClassificationResult` dataclass.  The `reasoning` annotation says
`str` but Python does not enforce it and `data.get("reasoning", "")` can
hand back any JSON value, so the field is a `PyVal` here. -/
structure ClassificationResult where
  classification : String
  confidence : Int
  reasoning : PyVal
deriving DecidableEq

/-- The three opening backtick characters of a Markdown code fence. -/
def fenceChars : List Char := ['\x60', '\x60', '\x60']

/-- The body of the fence-stripping branch of `_extract_json_obj`
(classifier.py lines 66-69), reached when `t` starts with a code fence:
`re.sub(r"^FENCE[a-zA-Z0-9]*\s*", "", t)` followed by
`re.sub(r"\s*FENCE$", "", t)`.  `t` was produced by `.strip()`, so it has no
trailing whitespace and the `$` anchor coincides with end-of-string. -/
def strip_code_fences (t : List Char) : List Char :=
  let t1 := ((t.drop 3).dropWhile Char.isAlphanum).dropWhile Char.isWhitespace
  if fenceChars.isSuffixOf t1 then
    ((t1.reverse.drop 3).dropWhile Char.isWhitespace).reverse
  else t1

/-- Failure modes of `_extract_json_obj`.  `reError`: after the direct
`json.loads` fails, the code executes
`re.search(r"\x7b(?:[^\x7b\x7d]|(?R))*\x7d", t)`; Python's `re` module does
not support the recursive extension `(?R)`, so compiling the pattern raises
`re.error` — the balanced-brace scan never runs and the final
`ValueError("No valid JSON object found in LLM output")` line is
unreachable when the direct parse fails. -/
inductive ExtractFailure where
  | reError
deriving DecidableEq

/-- The preprocessing of `_extract_json_obj` (classifier.py lines 64-69):
`t = (text or "").strip()` followed by the conditional fence stripping.
This is the only string ever handed to `json.loads`. -/
def normalized_llm_text (text : String) : String :=
  let t0 := pyStrip text
  if fenceChars.isPrefixOf t0.data then ⟨strip_code_fences t0.data⟩ else t0

/-- `_extract_json_obj` (classifier.py lines 59-85).  `loads` is the external
`json.loads`, returning `none` when it raises.  The text is stripped, code
fences are removed when present, the direct parse is attempted, and the
fallback regex scan raises `re.error` (see `ExtractFailure.reError`). -/
def extract_json_obj (loads : String → Option JObj) (text : String) :
    Except ExtractFailure JObj :=
  match loads (normalized_llm_text text) with
  | some j => .ok j
  | none => .error .reError

/-- Keyword groups of `RuleBasedClassifier.classify` (classifier.py lines
123-156), in source order. -/
def refundKeywords : List String := ["refund", "money back", "chargeback"]

def picturesKeywords : List String :=
  ["never received", "didn\x27t get", "didnt get", "where are my headshots",
   "not received photos"]

def regenerationKeywords : List String :=
  ["make my hair", "change hair", "longer hair", "shorter hair", "modify"]

def invoiceKeywords : List String := ["invoice", "receipt", "billing"]

def reuploadKeywords : List String :=
  ["reupload", "upload again", "new photos", "different pictures"]

def influencersKeywords : List String :=
  ["followers", "collaboration", "promote on", "influencer"]

def teamKeywords : List String := ["team", "enterprise", "bulk"]

def feedbackKeywords : List String := ["feedback", "suggestion", "how did we do"]

def linkedinKeywords : List String := ["linkedin", "shared on linkedin"]

def spamKeywords : List String := ["seo", "guest post", "backlink", "website ranking"]

/-- All keywords of all groups, in order; a text matching none of these falls
through to the `miscellaneous` return. -/
def allRuleKeywords : List String :=
  refundKeywords ++ picturesKeywords ++ regenerationKeywords ++ invoiceKeywords ++
  reuploadKeywords ++ influencersKeywords ++ teamKeywords ++ feedbackKeywords ++
  linkedinKeywords ++ spamKeywords

/-- `RuleBasedClassifier.classify` (classifier.py lines 123-156): lowercase
the text, test the keyword groups in source order, first match wins. -/
def RuleBasedClassifier.classify (text : String) : ClassificationResult :=
  let t := str_lower text
  if refundKeywords.any (fun k => containsSub t k) then
    ⟨"refund", 90, .pstr "Refund keywords detected"⟩
  else if picturesKeywords.any (fun k => containsSub t k) then
    ⟨"pictures-not-received-spam", 85, .pstr "Delivery issue keywords detected"⟩
  else if regenerationKeywords.any (fun k => containsSub t k) then
    ⟨"regeneration", 80, .pstr "Modification request detected"⟩
  else if invoiceKeywords.any (fun k => containsSub t k) then
    ⟨"invoice", 90, .pstr "Invoice request keywords detected"⟩
  else if reuploadKeywords.any (fun k => containsSub t k) then
    ⟨"reupload", 80, .pstr "Reupload intent detected"⟩
  else if influencersKeywords.any (fun k => containsSub t k) then
    ⟨"influencers", 80, .pstr "Influencer outreach detected"⟩
  else if teamKeywords.any (fun k => containsSub t k) then
    ⟨"team-info", 75, .pstr "Team/enterprise inquiry detected"⟩
  else if feedbackKeywords.any (fun k => containsSub t k) then
    ⟨"feedback", 70, .pstr "Feedback keywords detected"⟩
  else if linkedinKeywords.any (fun k => containsSub t k) then
    ⟨"linkedin", 85, .pstr "LinkedIn share detected"⟩
  else if spamKeywords.any (fun k => containsSub t k) then
    ⟨"sppam", 95, .pstr "Spam keywords detected"⟩
  else
    ⟨"miscellaneous", 40, .pstr "No clear category match"⟩

/-- The final guard of the LLM classifiers (classifier.py lines 201-202 and
261-262): `if classification not in CATEGORIES: classification =
"miscellaneous"`.  A non-string value never equals a member of a set of
strings, so anything that is not a category string is coerced. -/
def coerceCategory (v : PyVal) : String :=
  match v with
  | .pstr s => if s ∈ CATEGORIES then s else "miscellaneous"
  | _ => "miscellaneous"

/-- `resp.choices[0].message.content or "{}"`: the provider may return
`None` (and the empty string is falsy), in which case the literal `"{}"`
is parsed instead. -/
def pyContentOr (content : Option String) : String :=
  match content with
  | some s => if s = "" then "\x7b\x7d" else s
  | none => "\x7b\x7d"

/-- The shared response-handling tail of `LlmClassifier.classify`
(classifier.py lines 192-203) and `VectorLlmClassifier.classify` (lines
252-263) — the two method bodies are textually identical from the `try:`
on.  On a successful extraction the three fields are read with `dict.get`
defaults and `int()`; any exception inside the `try` (extraction failure or
`int()` failure) selects the fallback triple; the category coercion runs on
either path. -/
def llm_handle_content (loads : String → Option JObj) (content : Option String) :
    ClassificationResult :=
  match extract_json_obj loads (pyContentOr content) with
  | .ok data =>
      let clsv := jget data "classification" (.pstr "miscellaneous")
      match pyInt (jget data "confidence" (.pint 60)) with
      | .ok n => ⟨coerceCategory clsv, n, jget data "reasoning" (.pstr "")⟩
      | .error _ =>
          ⟨coerceCategory (.pstr "miscellaneous"), 60,
           .pstr "LLM output parsing fallback"⟩
  | .error _ =>
      ⟨coerceCategory (.pstr "miscellaneous"), 60,
       .pstr "LLM output parsing fallback"⟩

/-- `LlmClassifier.classify` (classifier.py lines 176-203).  `llmCall` is the
external `openai.chat.completions.create` call returning the message content
(`none` for a `None` content); it sits OUTSIDE the `try:` block, so when it
raises the exception propagates out of `classify`. -/
def LlmClassifier.classify (loads : String → Option JObj)
    (llmCall : Except Unit (Option String)) : Except Unit ClassificationResult :=
  match llmCall with
  | .error e => .error e
  | .ok content => .ok (llm_handle_content loads content)

/-- `VectorLlmClassifier.classify` (classifier.py lines 224-263).  `search`
is the external Qdrant retrieval (its result only feeds the prompt), then the
LLM call; both are outside the `try:` block and propagate. -/
def VectorLlmClassifier.classify (loads : String → Option JObj)
    (search : Except Unit Unit) (llmCall : Except Unit (Option String)) :
    Except Unit ClassificationResult :=
  match search with
  | .error e => .error e
  | .ok _ =>
      match llmCall with
      | .error e => .error e
      | .ok content => .ok (llm_handle_content loads content)

/-! ## src/app/zendesk.py -/

/-- A Zendesk comment as a JSON dict; only the keys the program reads are
modelled, each optional since `dict.get` tolerates absence. -/
structure ZComment where
  public : Option Bool
  author_id : Option Int
  plain_body : Option String
  html_body : Option String
  body : Option String
  created_at : Option String
deriving DecidableEq

/-- The ticket dict: `ticket.get("description", "")` and
`ticket.get("subject", "")` collapse missing keys to `""`, so the two fields
are plain strings. -/
structure Ticket where
  description : String
  subject : String
deriving DecidableEq

structure Turn where
  role : String
  message : String
deriving DecidableEq

structure Conversation where
  subject : String
  conversation : List Turn
deriving DecidableEq

/-- The `public_only` filter of `get_ticket_comments` (zendesk.py line 69):
`bool(c.get("public", False))` keeps exactly the comments whose `public`
field is `True`. -/
def filter_public (comments : List ZComment) : List ZComment :=
  comments.filter (fun c => c.public == some true)

/-- The effective text of a comment (zendesk.py line 90):
`(c.get("plain_body") or c.get("html_body") or c.get("body") or "").strip()`. -/
def comment_text (c : ZComment) : String :=
  pyStrip (pyOrStr c.plain_body (pyOrStr c.html_body (pyOrStr c.body "")))

/-- The role label (zendesk.py line 89): `"Support Staff" if
(support_staff_ids and author_id in support_staff_ids) else "Customer"`;
`support_staff_ids` may be `None` and the empty list is falsy. -/
def comment_role (ids? : Option (List Int)) (c : ZComment) : String :=
  let staff :=
    match ids? with
    | some ids =>
        !ids.isEmpty &&
          (match c.author_id with
           | some a => ids.contains a
           | none => false)
    | none => false
  if staff then "Support Staff" else "Customer"

/-- One iteration of the conversation loop (zendesk.py lines 86-93) for a
comment that is not skipped as a duplicate: empty text is skipped, otherwise
a turn with the role label is appended. -/
def comment_turn (ids? : Option (List Int)) (c : ZComment) : Option Turn :=
  let text := comment_text c
  if text = "" then none else some ⟨comment_role ids? c, text⟩

/-- The duplicate test (zendesk.py lines 79-83): the first public comment has
a string `plain_body` whose stripped value equals the stripped description. -/
def first_comment_dup (ticket : Ticket) (comments : List ZComment) : Bool :=
  match comments.head? with
  | some c0 =>
      match c0.plain_body with
      | some pb => pyStrip pb == pyStrip ticket.description
      | none => false
  | none => false

/-- `ZendeskClient.build_conversation` (zendesk.py lines 71-95), taking the
already-fetched ticket and (unfiltered) comments.  The loop enumerates the
public comments and skips index 0 exactly when the duplicate test fired. -/
def ZendeskClient.build_conversation (ticket : Ticket)
    (allComments : List ZComment) (ids? : Option (List Int)) : Conversation :=
  let comments := filter_public allComments
  let is_dup := first_comment_dup ticket comments
  ⟨ticket.subject,
   comments.enum.filterMap
     (fun ic => if ic.1 = 0 && is_dup then none else comment_turn ids? ic.2)⟩

/-! ## src/api/zendesk_webhook.py -/

/-- The per-comment test of the loop in `recent_classification_exists`
(zendesk_webhook.py lines 44-58): skip public comments and empty bodies; on a
body containing the literal `"classification"` (quotes included), a truthy
`created_at` decides: parsed timestamp at or after the cutoff means `True`;
a parse (or timezone comparison) failure also means `True`; a falsy
`created_at` just moves on.  `parseTime` is the external
`datetime.fromisoformat` composed with the comparison against the aware
cutoff: `some t` is the parsed timestamp in minutes, `none` means the
`except` branch was taken. -/
def recent_comment_hit (parseTime : String → Option Int) (cutoff : Int)
    (c : ZComment) : Bool :=
  if c.public == some true then false
  else
    let body := pyStrip (pyOrStr c.body (pyOrStr c.plain_body ""))
    if body = "" then false
    else if containsSub body "\"classification\"" then
      match c.created_at with
      | some s =>
          if s = "" then false
          else
            match parseTime (replaceZ s) with
            | some t => decide (t ≥ cutoff)
            | none => true
      | none => false
    else false

/-- `recent_classification_exists` (zendesk_webhook.py lines 38-60).  `fetch`
is the external comments request (`.error` when it raises, answered with
`False`); the loop over `reversed(data)` only ever early-returns `True`, so
it is `List.any` over the reversed list.  Times are in minutes: the cutoff is
`now - window_minutes`. -/
def recent_classification_exists (fetch : Except Unit (List ZComment))
    (parseTime : String → Option Int) (now window_minutes : Int) : Bool :=
  match fetch with
  | .error _ => false
  | .ok data => data.reverse.any (recent_comment_hit parseTime (now - window_minutes))

/-- Python dict assignment `mapping[cat] = txt` on an insertion-ordered
association list: overwrite in place when the key exists, append otherwise. -/
def dinsert (m : List (String × String)) (k v : String) : List (String × String) :=
  if m.any (fun p => p.1 == k) then
    m.map (fun p => if p.1 == k then (k, v) else p)
  else m ++ [(k, v)]

/-- `row.get(key)` of `csv.DictReader`: the cell at the position of `key` in
the (original, un-normalised) header row, `None` when the key is not a header
or the row is too short.  (Duplicate header names are out of scope.) -/
def lookupField (fieldnames row : List String) (key : String) : Option String :=
  match fieldnames.findIdx? (fun fn => fn == key) with
  | some i => row.get? i
  | none => none

/-- The response column choice (zendesk_webhook.py line 104):
`resp_key = "response_text" if "response_text" in fieldnames else "response"`. -/
def resp_key_of (lowered : List String) : String :=
  if lowered.contains "response_text" then "response_text" else "response"

/-- The per-file parsing of `load_response_mapping` (zendesk_webhook.py lines
96-122), applied to the rows the `csv` module produced.  The header check
lowercases a COPY of the field names, while `row.get` still uses the original
ones; in the headerless branch every row (including the first) contributes
its first two cells unless the key is empty, the value is empty, or the key
is the literal `category`. -/
def load_from_rows (rows : List (List String)) : List (String × String) :=
  let fieldnames := rows.head?.getD []
  let lowered := fieldnames.map (fun fn => str_lower (pyStrip fn))
  if lowered.contains "category" &&
      (lowered.contains "response_text" || lowered.contains "response") then
    let resp_key := resp_key_of lowered
    rows.tail.foldl
      (fun m row =>
        let cat := str_lower (pyStrip ((lookupField fieldnames row "category").getD ""))
        let txt := pyStrip ((lookupField fieldnames row resp_key).getD "")
        if cat ≠ "" ∧ txt ≠ "" then dinsert m cat txt else m)
      []
  else
    rows.foldl
      (fun m row =>
        if row.length < 2 then m
        else
          let cat := str_lower (pyStrip (row.headD ""))
          let txt := pyStrip ((row.get? 1).getD "")
          if cat ≠ "" ∧ txt ≠ "" ∧ cat ≠ "category" then dinsert m cat txt else m)
      []

/-- The candidate list of `load_response_mapping` (zendesk_webhook.py lines
74-86): the `RESPONSE_MAP_PATH` override first (when set and truthy), then
the five conventional paths in source order. -/
def candidatePaths (envPath : Option String) : List String :=
  (match envPath with
   | some p => if p = "" then [] else [p]
   | none => []) ++
  ["DATA/Ticket_map.csv", "data/Ticket_map.csv", "data/ricket_map.csv",
   "ricket_map.csv", "data/response_templates.csv"]

/-- The candidate loop of `load_response_mapping` (zendesk_webhook.py lines
94-127): a missing file (`none`) or a file whose open/parse raises
(`.error`) moves to the next candidate; the FIRST candidate that exists and
parses returns its mapping — even when that mapping is empty. -/
def load_candidates (fs : String → Option (Except Unit (List (List String)))) :
    List String → List (String × String)
  | [] => []
  | p :: rest =>
      match fs p with
      | none => load_candidates fs rest
      | some (.error _) => load_candidates fs rest
      | some (.ok rows) => load_from_rows rows

/-- `load_response_mapping` (zendesk_webhook.py lines 63-131).  `fs` models
the filesystem: `none` = path does not exist, `some (.error _)` = reading or
parsing raised, `some (.ok rows)` = the parsed CSV rows. -/
def load_response_mapping (fs : String → Option (Except Unit (List (List String))))
    (envPath : Option String) : List (String × String) :=
  load_candidates fs (candidatePaths envPath)

/-! ## The webhook endpoint (`handler.do_POST`, zendesk_webhook.py lines 141-209) -/

/-- The JSON bodies the endpoint sends; each `_send` call in the source maps
to one constructor. -/
inductive RespBody where
  | unauthorized
  | missingTicket
  | skippedRecent
  | success (ticket_id : Int) (classification : String) (answer_posted : Bool)
  | failure (error : String)
deriving DecidableEq

/-- The external effects of one request, each an `Except` when the Python
call can raise: `ZendeskConfig.from_env`, the comments fetch used by
`recent_classification_exists`, the timestamp parser and clock, the ticket
and comments fetches of `build_conversation`, the chosen classifier's
`classify` call, the two `add_private_comment` calls, and the filesystem and
`RESPONSE_MAP_PATH` value seen by `load_response_mapping`. -/
structure Downstream where
  config : Except String Unit
  recentFetch : Except Unit (List ZComment)
  parseTime : String → Option Int
  now : Int
  ticket : Except String Ticket
  commentsFetch : Except String (List ZComment)
  classifyResult : Except String ClassificationResult
  postNote : Except String Unit
  fs : String → Option (Except Unit (List (List String)))
  envPath : Option String
  postAnswer : Except String Unit

/-- The body of the outer `try:` of `do_POST` (zendesk_webhook.py lines
162-203): config, idempotency check (window 10 minutes), conversation
assembly (the webhook passes no staff ids), classification, the private
classification note, and the optional mapped answer note.  `.error` is an
exception escaping to the `except` clause. -/
def webhook_pipeline (tid : Int) (d : Downstream) : Except String RespBody := do
  let _ ← d.config
  if recent_classification_exists d.recentFetch d.parseTime d.now 10 then
    return .skippedRecent
  let t ← d.ticket
  let cs ← d.commentsFetch
  let _conv := ZendeskClient.build_conversation t cs none
  let result ← d.classifyResult
  let _ ← d.postNote
  let mapping := load_response_mapping d.fs d.envPath
  let answer := mapping.lookup (str_lower result.classification)
  let posted := match answer with | some a => decide (a ≠ "") | none => false
  let _ ← if posted then d.postAnswer else Except.ok ()
  return .success tid result.classification posted

/-- The bearer check (zendesk_webhook.py lines 143-145): the header starts
with `Bearer ` and the rest, stripped, equals the configured secret. -/
def bearer_ok (secret auth : String) : Bool :=
  "Bearer ".data.isPrefixOf auth.data && pyStrip (auth.drop 7) == secret

/-- `handler.do_POST` (zendesk_webhook.py lines 141-209).  The auth block
runs only when a secret is configured; a missing or falsy ticket id is a
400; every outcome of the classification pipeline — success, skip or caught
exception — is a 200. -/
def do_POST (secret auth : String) (ticket_id : Option Int) (d : Downstream) :
    Nat × RespBody :=
  if secret ≠ "" ∧ bearer_ok secret auth = false then (401, .unauthorized)
  else
    match ticket_id with
    | none => (400, .missingTicket)
    | some n =>
        if n = 0 then (400, .missingTicket)
        else
          match webhook_pipeline n d with
          | .ok b => (200, b)
          | .error e => (200, .failure e)

/-! ## Concrete inputs used by the counterexamples and witnesses -/

/-- A `json.loads` that fails on every input. -/
def loadsNone : String → Option JObj := fun _ => none

/-- A `json.loads` producing a JSON object whose `confidence` is 150. -/
def loads150 : String → Option JObj :=
  fun _ => some [("classification", .pstr "refund"), ("confidence", .pint 150)]

/-- An LLM output with a valid JSON object embedded in surrounding prose:
not directly parseable, not code-fenced. -/
def proseOutput : String :=
  "Sure! Here is the JSON you asked for: \x7b\"classification\": \"refund\", \"confidence\": 90\x7d Hope this helps."

/-- An internal (non-public) comment whose body is a classification note. -/
def exComment : ZComment :=
  { public := some false, author_id := none, plain_body := none,
    html_body := none,
    body := some "\x7b\"classification\": \"refund\", \"confidence\": 90\x7d",
    created_at := some "T1" }

/-- A public comment by author 7 with plain body `hello`. -/
def exStaffComment : ZComment :=
  { public := some true, author_id := some 7, plain_body := some "hello",
    html_body := none, body := none, created_at := none }

/-- A ticket whose description differs from the first comment. -/
def exTicket : Ticket := { description := "desc", subject := "subj" }

/-- A filesystem where the first conventional candidate exists but yields an
empty mapping (an empty CSV file) and the second would yield one entry. -/
def fsEmptyFirst : String → Option (Except Unit (List (List String))) :=
  fun p =>
    if p = "DATA/Ticket_map.csv" then some (.ok [])
    else if p = "data/Ticket_map.csv" then
      some (.ok [["refund", "Use the refund macro"]])
    else none

/-- A benign set of downstream effects: everything succeeds, no recent
classification, rule-based-style result, no mapped answer. -/
def dsOk : Downstream :=
  { config := .ok (), recentFetch := .ok [], parseTime := fun _ => none,
    now := 0, ticket := .ok exTicket, commentsFetch := .ok [],
    classifyResult := .ok ⟨"refund", 90, .pstr "Refund keywords detected"⟩,
    postNote := .ok (), fs := fun _ => none, envPath := none,
    postAnswer := .ok () }

/-- Downstream effects whose very first step (`ZendeskConfig.from_env`)
raises. -/
def dsFail : Downstream :=
  { dsOk with config := .error "boom" }

/-- A filesystem holding only a single file at the path `override.csv`. -/
def fsOverride : String → Option (Except Unit (List (List String))) :=
  fun q => if q = "override.csv" then some (.ok [["refund", "R"]]) else none

/-! ## Helper lemmas -/

/-- The category coercion always lands in `CATEGORIES`. -/
theorem coerceCategory_mem (v : PyVal) : coerceCategory v ∈ CATEGORIES := by
  cases v with
  | pstr s =>
      by_cases hs : s ∈ CATEGORIES
      · simp [coerceCategory, hs]
      · simp only [coerceCategory, if_neg hs]; decide
  | pint n => show "miscellaneous" ∈ CATEGORIES; decide
  | pbool b => show "miscellaneous" ∈ CATEGORIES; decide
  | pnull => decide
  | plist => decide
  | pdict => decide

/-- Whatever the LLM answered, the handled result's category is in the set. -/
theorem llm_handle_content_mem (loads : String → Option JObj) (content : Option String) :
    (llm_handle_content loads content).classification ∈ CATEGORIES := by
  unfold llm_handle_content
  cases hx : extract_json_obj loads (pyContentOr content) with
  | error e =>
      simp only [hx]
      exact coerceCategory_mem (PyVal.pstr "miscellaneous")
  | ok data =>
      simp only [hx]
      cases hy : pyInt (jget data "confidence" (.pint 60)) with
      | error u =>
          simp only [hy]
          exact coerceCategory_mem (PyVal.pstr "miscellaneous")
      | ok n =>
          simp only [hy]
          exact coerceCategory_mem (jget data "classification" (.pstr "miscellaneous"))

/-! ## Claim theorems -/

set_option maxHeartbeats 1000000 in
/-- C1: for every classifier strategy and every input, the classification
field of a returned ClassificationResult is a member of the fixed closed
category set CATEGORIES, and any value outside the set produced by an LLM
response is coerced to "miscellaneous". -/
theorem classification_always_in_categories :
    (∀ text, (RuleBasedClassifier.classify text).classification ∈ CATEGORIES) ∧
    (∀ loads llmCall r, LlmClassifier.classify loads llmCall = .ok r →
        r.classification ∈ CATEGORIES) ∧
    (∀ loads search llmCall r,
        VectorLlmClassifier.classify loads search llmCall = .ok r →
        r.classification ∈ CATEGORIES) ∧
    (∀ v : PyVal, (∀ s ∈ CATEGORIES, v ≠ .pstr s) →
        coerceCategory v = "miscellaneous") := by
  refine ⟨?_, ?_, ?_, ?_⟩
  · intro text
    simp only [RuleBasedClassifier.classify]
    split_ifs <;> decide
  · intro loads llmCall r h
    cases llmCall with
    | error e => simp [LlmClassifier.classify] at h
    | ok content =>
        simp only [LlmClassifier.classify, Except.ok.injEq] at h
        exact h ▸ llm_handle_content_mem loads content
  · intro loads search llmCall r h
    cases search with
    | error e => simp [VectorLlmClassifier.classify] at h
    | ok u =>
        cases llmCall with
        | error e => simp [VectorLlmClassifier.classify] at h
        | ok content =>
            simp only [VectorLlmClassifier.classify, Except.ok.injEq] at h
            exact h ▸ llm_handle_content_mem loads content
  · intro v hv
    cases v with
    | pstr s =>
        by_cases hs : s ∈ CATEGORIES
        · exact absurd rfl (hv s hs)
        · simp [coerceCategory, hs]
    | pint n => rfl
    | pbool b => rfl
    | pnull => rfl
    | plist => rfl
    | pdict => rfl

/-- C1 witness: the invariants evaluated at concrete inputs. -/
theorem classification_always_in_categories_inst :
    (RuleBasedClassifier.classify "I want a refund").classification ∈ CATEGORIES ∧
    coerceCategory (.pstr "bogus-category") = "miscellaneous" :=
  ⟨classification_always_in_categories.1 "I want a refund",
   classification_always_in_categories.2.2.2 (.pstr "bogus-category") (by decide)⟩

/-- C3 counterexample: when the LLM call itself raises, `classify` does not
return the fallback result — the exception propagates to the caller. -/
theorem llm_call_error_propagates_cex :
    LlmClassifier.classify loadsNone (.error ()) = .error () := rfl

/-- C3 (amended): every parse failure inside the `try` — JSON extraction
failure or a non-convertible `confidence` — yields the soft-failure result
(miscellaneous, 60, "LLM output parsing fallback") rather than an exception;
but an exception raised by the LLM call itself propagates out of `classify`. -/
theorem llm_parse_failure_soft_fallback :
    (∀ loads content e,
        extract_json_obj loads (pyContentOr content) = .error e →
        LlmClassifier.classify loads (.ok content) =
          .ok ⟨"miscellaneous", 60, .pstr "LLM output parsing fallback"⟩) ∧
    (∀ loads content data,
        extract_json_obj loads (pyContentOr content) = .ok data →
        pyInt (jget data "confidence" (.pint 60)) = .error () →
        LlmClassifier.classify loads (.ok content) =
          .ok ⟨"miscellaneous", 60, .pstr "LLM output parsing fallback"⟩) ∧
    (∀ loads e, LlmClassifier.classify loads (.error e) = .error e) := by
  refine ⟨?_, ?_, ?_⟩
  · intro loads content e h
    simp only [LlmClassifier.classify, llm_handle_content, h]
    rfl
  · intro loads content data h1 h2
    simp only [LlmClassifier.classify, llm_handle_content, h1, h2]
    rfl
  · intro loads e
    rfl

/-- C3 witness: a content string no `json.loads` accepts produces the
fallback result. -/
theorem llm_parse_failure_soft_fallback_inst :
    LlmClassifier.classify loadsNone (.ok (some "garbage")) =
      .ok ⟨"miscellaneous", 60, .pstr "LLM output parsing fallback"⟩ :=
  llm_parse_failure_soft_fallback.1 loadsNone (some "garbage") .reError rfl

/-- C4 (code bug): the JSON extraction has no working third attempt.  An
extraction can only succeed through the direct parse of the (possibly
fence-stripped) text; and on any model output whose direct parse fails —
in particular a valid JSON object embedded in surrounding prose — the
function raises `re.error` from the unsupported `(?R)` regex instead of
scanning for the balanced brace block. -/
theorem extract_json_no_balanced_scan :
    (∀ loads text j, extract_json_obj loads text = .ok j →
        loads (normalized_llm_text text) = some j) ∧
    (∀ loads : String → Option JObj, loads proseOutput = none →
        extract_json_obj loads proseOutput = .error .reError) := by
  constructor
  · intro loads text j h
    unfold extract_json_obj at h
    cases hl : loads (normalized_llm_text text) with
    | none => rw [hl] at h; simp at h
    | some j' => rw [hl] at h; simp at h; rw [h]
  · intro loads h
    have hn : normalized_llm_text proseOutput = proseOutput := by decide
    unfold extract_json_obj
    rw [hn, h]

/-- C4 witness: the prose-embedded JSON output evaluated through the
extraction: `re.error`, not the embedded object. -/
theorem extract_json_no_balanced_scan_inst :
    extract_json_obj loadsNone proseOutput = .error .reError :=
  extract_json_no_balanced_scan.2 loadsNone rfl

set_option maxHeartbeats 1000000 in
/-- C9: any text containing a refund keyword (after lowercasing) is
classified "refund" with confidence 90 — refund is the first group tested,
so nothing can preempt it — and a text matching no keyword of any group is
classified "miscellaneous" with confidence 40. -/
theorem rule_based_refund_first_and_misc_default :
    (∀ text,
        (containsSub (str_lower text) "refund" = true ∨
         containsSub (str_lower text) "money back" = true ∨
         containsSub (str_lower text) "chargeback" = true) →
        RuleBasedClassifier.classify text =
          ⟨"refund", 90, .pstr "Refund keywords detected"⟩) ∧
    (∀ text, (∀ k ∈ allRuleKeywords, containsSub (str_lower text) k = false) →
        RuleBasedClassifier.classify text =
          ⟨"miscellaneous", 40, .pstr "No clear category match"⟩) := by
  constructor
  · intro text h
    have hc : (refundKeywords.any fun k => containsSub (str_lower text) k) = true := by
      simp only [refundKeywords, List.any_cons, List.any_nil, Bool.or_eq_true,
        Bool.or_false]
      rcases h with h | h | h
      · exact Or.inl h
      · exact Or.inr (Or.inl h)
      · exact Or.inr (Or.inr h)
    simp [RuleBasedClassifier.classify, hc]
  · intro text h
    have hg : ∀ G : List String, (∀ k, k ∈ G → k ∈ allRuleKeywords) →
        (G.any fun k => containsSub (str_lower text) k) = false := by
      intro G hG
      rw [List.any_eq_false]
      intro k hk
      simp [h k (hG k hk)]
    have h1 := hg refundKeywords (by intro k hk; simp [allRuleKeywords]; tauto)
    have h2 := hg picturesKeywords (by intro k hk; simp [allRuleKeywords]; tauto)
    have h3 := hg regenerationKeywords (by intro k hk; simp [allRuleKeywords]; tauto)
    have h4 := hg invoiceKeywords (by intro k hk; simp [allRuleKeywords]; tauto)
    have h5 := hg reuploadKeywords (by intro k hk; simp [allRuleKeywords]; tauto)
    have h6 := hg influencersKeywords (by intro k hk; simp [allRuleKeywords]; tauto)
    have h7 := hg teamKeywords (by intro k hk; simp [allRuleKeywords]; tauto)
    have h8 := hg feedbackKeywords (by intro k hk; simp [allRuleKeywords]; tauto)
    have h9 := hg linkedinKeywords (by intro k hk; simp [allRuleKeywords]; tauto)
    have h10 := hg spamKeywords (by intro k hk; simp [allRuleKeywords]; tauto)
    simp [RuleBasedClassifier.classify, h1, h2, h3, h4, h5, h6, h7, h8, h9, h10]

/-- C9 witness: a concrete refund text and a concrete no-keyword text. -/
theorem rule_based_refund_first_and_misc_default_inst :
    RuleBasedClassifier.classify "Please give me my MONEY BACK" =
      ⟨"refund", 90, .pstr "Refund keywords detected"⟩ ∧
    RuleBasedClassifier.classify "good morning" =
      ⟨"miscellaneous", 40, .pstr "No clear category match"⟩ :=
  ⟨rule_based_refund_first_and_misc_default.1 "Please give me my MONEY BACK"
      (Or.inr (Or.inl (by decide))),
   rule_based_refund_first_and_misc_default.2 "good morning" (by decide)⟩

/-- C10 counterexample: a JSON answer with `confidence: 150` is returned
as-is, so the confidence of a ClassificationResult is not always within
0..100. -/
theorem confidence_unclamped_cex :
    LlmClassifier.classify loads150 (.ok (some "x")) =
      .ok ⟨"refund", 150, .pstr ""⟩ ∧ ¬((150 : Int) ≤ 100) := by
  constructor
  · rfl
  · decide

set_option maxHeartbeats 1000000 in
/-- C10 (amended): the rule-based classifier's confidence always lies in
0..100, and the LLM fallback confidence is 60; but on a successful parse the
LLM strategies pass the `int()`-converted JSON confidence through without
clamping, so it is whatever integer the model produced. -/
theorem confidence_bounds_amended :
    (∀ text, 0 ≤ (RuleBasedClassifier.classify text).confidence ∧
        (RuleBasedClassifier.classify text).confidence ≤ 100) ∧
    (∀ loads content e r,
        extract_json_obj loads (pyContentOr content) = .error e →
        LlmClassifier.classify loads (.ok content) = .ok r →
        r.confidence = 60) ∧
    (∀ loads content data n r,
        extract_json_obj loads (pyContentOr content) = .ok data →
        pyInt (jget data "confidence" (.pint 60)) = .ok n →
        LlmClassifier.classify loads (.ok content) = .ok r →
        r.confidence = n) := by
  refine ⟨?_, ?_, ?_⟩
  · intro text
    simp only [RuleBasedClassifier.classify]
    split_ifs <;> exact ⟨by decide, by decide⟩
  · intro loads content e r h hr
    simp only [LlmClassifier.classify, llm_handle_content, h, Except.ok.injEq] at hr
    rw [← hr]
  · intro loads content data n r h1 h2 hr
    simp only [LlmClassifier.classify, llm_handle_content, h1, h2,
      Except.ok.injEq] at hr
    rw [← hr]

/-- C10 witness: the pass-through evaluated on the confidence-150 answer. -/
theorem confidence_bounds_amended_inst :
    ((⟨"refund", 150, .pstr ""⟩ : ClassificationResult)).confidence = 150 :=
  confidence_bounds_amended.2.2 loads150 (some "x")
    [("classification", .pstr "refund"), ("confidence", .pint 150)] 150
    ⟨"refund", 150, .pstr ""⟩ rfl rfl rfl

/-- C6 counterexample: with no secret configured, a request carrying
`Authorization: Bearer wrong` is not rejected with 401 — the auth block is
skipped entirely and the request proceeds (here to the 400 for a missing
ticket id). -/
theorem unconfigured_secret_bearer_wrong_cex :
    do_POST "" "Bearer wrong" none dsOk = (400, .missingTicket) ∧
    (400 : Nat) ≠ 401 := by
  constructor
  · rfl
  · decide

/-- C6 (amended): when a secret IS configured and differs from `wrong`, the
header `Authorization: Bearer wrong` is rejected with 401; when no secret is
configured, authentication is skipped and the endpoint never answers 401. -/
theorem bearer_wrong_rejected_iff_secret_configured :
    (∀ secret t d, secret ≠ "" → secret ≠ "wrong" →
        do_POST secret "Bearer wrong" t d = (401, .unauthorized)) ∧
    (∀ auth t d, (do_POST "" auth t d).1 ≠ 401) := by
  constructor
  · intro secret t d h1 h2
    have he : pyStrip ("Bearer wrong".drop 7) = "wrong" := rfl
    have hpre : "Bearer ".data.isPrefixOf "Bearer wrong".data = true := rfl
    have hb : bearer_ok secret "Bearer wrong" = false := by
      unfold bearer_ok
      rw [he, hpre, Bool.true_and]
      exact beq_eq_false_iff_ne.mpr (fun hw => h2 hw.symm)
    unfold do_POST
    rw [if_pos ⟨h1, hb⟩]
  · intro auth t d
    unfold do_POST
    rw [if_neg (by simp)]
    cases t with
    | none => simp
    | some n =>
        by_cases hn : n = 0
        · simp [hn]
        · simp only [if_neg hn]
          cases webhook_pipeline n d <;> simp

/-- C6 witness: a configured secret rejects the wrong bearer token. -/
theorem bearer_wrong_rejected_iff_secret_configured_inst :
    do_POST "s3cret" "Bearer wrong" (some 5) dsOk = (401, .unauthorized) :=
  bearer_wrong_rejected_iff_secret_configured.1 "s3cret" (some 5) dsOk
    (by decide) (by decide)

/-- C7: for every authenticated request with a truthy ticket id, an exception
anywhere in the classification pipeline is caught and answered with HTTP 200
and an `ok:false` error body; and every response of the endpoint has status
401, 400 or 200. -/
theorem endpoint_absorbs_pipeline_errors :
    (∀ secret auth tid d e,
        (secret = "" ∨ bearer_ok secret auth = true) →
        tid ≠ 0 →
        webhook_pipeline tid d = .error e →
        do_POST secret auth (some tid) d = (200, .failure e)) ∧
    (∀ secret auth t d, (do_POST secret auth t d).1 = 401 ∨
        (do_POST secret auth t d).1 = 400 ∨ (do_POST secret auth t d).1 = 200) := by
  constructor
  · intro secret auth tid d e hauth htid hpipe
    unfold do_POST
    rw [if_neg (by rcases hauth with h | h <;> simp [h])]
    simp only [if_neg htid, hpipe]
  · intro secret auth t d
    unfold do_POST
    by_cases hc : secret ≠ "" ∧ bearer_ok secret auth = false
    · simp [hc]
    · rw [if_neg hc]
      cases t with
      | none => simp
      | some n =>
          by_cases hn : n = 0
          · simp [hn]
          · simp only [if_neg hn]
            cases webhook_pipeline n d <;> simp

/-- C7 witness: a request whose `ZendeskConfig.from_env` raises is answered
200 with the error string in the body. -/
theorem endpoint_absorbs_pipeline_errors_inst :
    do_POST "" "x" (some 5) dsFail = (200, .failure "boom") :=
  endpoint_absorbs_pipeline_errors.1 "" "x" 5 dsFail "boom" (Or.inl rfl)
    (by decide) rfl

/-- Pointwise characterization of the idempotency loop body: a comment makes
the guard return `True` exactly when it is not public, its effective body is
non-empty and contains the quoted `"classification"` literal, and its
timestamp is a non-empty string that either parses to a time at or after the
cutoff or fails to parse. -/
theorem recent_comment_hit_iff (pt : String → Option Int) (cutoff : Int)
    (c : ZComment) :
    recent_comment_hit pt cutoff c = true ↔
      (¬c.public = some true ∧
       pyStrip (pyOrStr c.body (pyOrStr c.plain_body "")) ≠ "" ∧
       containsSub (pyStrip (pyOrStr c.body (pyOrStr c.plain_body "")))
         "\"classification\"" = true ∧
       ∃ s, c.created_at = some s ∧ s ≠ "" ∧
         ((∃ t, pt (replaceZ s) = some t ∧ cutoff ≤ t) ∨
          pt (replaceZ s) = none)) := by
  unfold recent_comment_hit
  by_cases hp : c.public = some true
  · simp [hp]
  · have hp' : (c.public == some true) = false := by
      simp [hp]
    rw [hp']
    simp only [Bool.false_eq_true, if_false]
    by_cases hb : pyStrip (pyOrStr c.body (pyOrStr c.plain_body "")) = ""
    · simp [hb]
    · rw [if_neg hb]
      by_cases hcs : containsSub (pyStrip (pyOrStr c.body (pyOrStr c.plain_body "")))
          "\"classification\"" = true
      · rw [if_pos hcs]
        cases hca : c.created_at with
        | none => simp [hp, hb, hcs]
        | some s =>
            dsimp only
            by_cases hs : s = ""
            · simp [hp, hb, hcs, hs]
            · rw [if_neg hs]
              cases hpt : pt (replaceZ s) with
              | none => simp [hp, hb, hcs, hs, hpt]
              | some t => simp [hp, hb, hcs, hs, hpt, ge_iff_le]
      · simp only [if_neg hcs]
        simp [hp, hb, hcs]

/-- C2: the recency guard returns True exactly when some non-public comment
has a non-empty body containing the `"classification"` literal and a truthy
timestamp that is within the trailing 10-minute window or fails to parse; a
matching comment 1 minute old skips, one 15 minutes old proceeds, and a
failing comments fetch proceeds. -/
theorem recent_classification_exists_characterization :
    (∀ parseTime now w,
        recent_classification_exists (.error ()) parseTime now w = false) ∧
    (∀ data parseTime now,
        recent_classification_exists (.ok data) parseTime now 10 = true ↔
          ∃ c ∈ data, ¬c.public = some true ∧
            pyStrip (pyOrStr c.body (pyOrStr c.plain_body "")) ≠ "" ∧
            containsSub (pyStrip (pyOrStr c.body (pyOrStr c.plain_body "")))
              "\"classification\"" = true ∧
            ∃ s, c.created_at = some s ∧ s ≠ "" ∧
              ((∃ t, parseTime (replaceZ s) = some t ∧ now - 10 ≤ t) ∨
               parseTime (replaceZ s) = none)) ∧
    recent_classification_exists (.ok [exComment]) (fun _ => some 999) 1000 10 = true ∧
    recent_classification_exists (.ok [exComment]) (fun _ => some 985) 1000 10 = false := by
  refine ⟨?_, ?_, ?_, ?_⟩
  · intro parseTime now w
    rfl
  · intro data parseTime now
    show data.reverse.any (recent_comment_hit parseTime (now - 10)) = true ↔ _
    rw [List.any_eq_true]
    constructor
    · rintro ⟨c, hc, hhit⟩
      exact ⟨c, List.mem_reverse.mp hc,
        (recent_comment_hit_iff parseTime (now - 10) c).mp hhit⟩
    · rintro ⟨c, hc, hcond⟩
      exact ⟨c, List.mem_reverse.mpr hc,
        (recent_comment_hit_iff parseTime (now - 10) c).mpr hcond⟩
  · decide
  · decide

/-- Away from index 0, the idx-0 skip of the conversation loop is inert. -/
theorem filterMap_enumFrom_skip {α β : Type} (g : α → Option β)
    (l : List α) (n : Nat) (hn : n ≠ 0) :
    (List.enumFrom n l).filterMap
        (fun ic => if ic.1 = 0 then none else g ic.2) = l.filterMap g := by
  induction l generalizing n with
  | nil => rfl
  | cons a l ih =>
      simp only [List.enumFrom_cons, List.filterMap_cons, if_neg hn]
      rw [ih (n + 1) (Nat.succ_ne_zero n)]

/-- Enumerating and then ignoring the indices is the plain `filterMap`. -/
theorem filterMap_enumFrom_snd {α β : Type} (g : α → Option β)
    (l : List α) (n : Nat) :
    (List.enumFrom n l).filterMap (fun ic => g ic.2) = l.filterMap g := by
  induction l generalizing n with
  | nil => rfl
  | cons a l ih =>
      simp only [List.enumFrom_cons, List.filterMap_cons]
      rw [ih (n + 1)]

/-- The role label is `Support Staff` exactly when the allow-list is
supplied, non-empty, and contains the comment's author id. -/
theorem comment_role_eq (ids? : Option (List Int)) (c : ZComment) :
    comment_role ids? c = "Support Staff" ↔
      ∃ l, ids? = some l ∧ l ≠ [] ∧ ∃ a, c.author_id = some a ∧ a ∈ l := by
  unfold comment_role
  cases ids? with
  | none =>
      dsimp only
      constructor
      · intro h
        rw [if_neg Bool.false_ne_true] at h
        exact absurd h (by decide)
      · rintro ⟨l, hl, -⟩
        cases hl
  | some ids =>
      dsimp only
      cases hB : (!ids.isEmpty &&
          (match c.author_id with
           | some a => ids.contains a
           | none => false)) with
      | true =>
          rw [if_pos rfl]
          simp only [true_iff]
          rw [Bool.and_eq_true] at hB
          obtain ⟨hne, hmem⟩ := hB
          refine ⟨ids, rfl, ?_, ?_⟩
          · intro hnil
            rw [hnil] at hne
            exact absurd hne (by decide)
          · cases hca : c.author_id with
            | none => rw [hca] at hmem; simp at hmem
            | some a =>
                rw [hca] at hmem
                simp only [] at hmem
                refine ⟨a, rfl, ?_⟩
                simpa using hmem
      | false =>
          rw [if_neg Bool.false_ne_true]
          constructor
          · intro h
            exact absurd h (by decide)
          · rintro ⟨l, hl, hne, a, ha, hmem⟩
            injection hl with hl
            subst hl
            rw [ha] at hB
            simp only [Bool.and_eq_false_iff] at hB
            rcases hB with h1 | h2
            · simp at h1
              exact absurd h1 hne
            · simp at h2
              exact absurd hmem h2

/-- C8 (amended): the conversation is the per-comment mapping of the public
comments, with the whole first public comment dropped exactly when its
`plain_body` exists and strips to the stripped description; a comment is
dropped by the mapping exactly when its effective text is empty; and an
included turn's role is `Support Staff` (with a space) exactly when the
allow-list is supplied, non-empty and contains the comment's author id —
otherwise `Customer`. -/
theorem build_conversation_amended :
    (∀ t cs ids?,
        (ZendeskClient.build_conversation t cs ids?).conversation =
          (if first_comment_dup t (filter_public cs) = true
            then (filter_public cs).drop 1 else filter_public cs).filterMap
            (comment_turn ids?)) ∧
    (∀ ids? c tr, comment_turn ids? c = some tr →
        (tr.role = "Support Staff" ↔
          ∃ l, ids? = some l ∧ l ≠ [] ∧
            ∃ a, c.author_id = some a ∧ a ∈ l)) ∧
    (∀ ids? c, comment_turn ids? c = none ↔ comment_text c = "") ∧
    (∀ t cs, first_comment_dup t cs = true ↔
        ∃ c0, cs.head? = some c0 ∧ ∃ pb, c0.plain_body = some pb ∧
          pyStrip pb = pyStrip t.description) := by
  refine ⟨?_, ?_, ?_, ?_⟩
  · intro t cs ids?
    unfold ZendeskClient.build_conversation
    dsimp only
    cases hps : filter_public cs with
    | nil => simp [first_comment_dup]
    | cons a l =>
        cases hb : first_comment_dup t (a :: l) with
        | true =>
            simp only [hb, Bool.and_true, if_true, List.enum_cons,
              List.filterMap_cons, List.drop_succ_cons, List.drop_zero,
              decide_eq_true_eq]
            exact filterMap_enumFrom_skip (comment_turn ids?) l 1 one_ne_zero
        | false =>
            simp only [hb, Bool.and_false, if_false, List.enum_cons,
              List.filterMap_cons, Bool.false_eq_true]
            rw [filterMap_enumFrom_snd (comment_turn ids?) l 1]
  · intro ids? c tr htr
    unfold comment_turn at htr
    by_cases htext : comment_text c = ""
    · simp [htext] at htr
    · rw [if_neg htext] at htr
      injection htr with htr
      rw [← htr]
      exact comment_role_eq ids? c
  · intro ids? c
    unfold comment_turn
    by_cases htext : comment_text c = ""
    · simp [htext]
    · simp [htext]
  · intro t cs
    unfold first_comment_dup
    cases cs.head? with
    | none => simp
    | some c0 =>
        cases hpb : c0.plain_body with
        | none => simp [hpb]
        | some pb => simp [hpb, beq_iff_eq]

/-- C8 witness: the role characterization applied to the allow-listed author
7 of the concrete staff comment. -/
theorem build_conversation_amended_inst :
    (⟨"Support Staff", "hello"⟩ : Turn).role = "Support Staff" :=
  (build_conversation_amended.2.1 (some [7]) exStaffComment
      ⟨"Support Staff", "hello"⟩ (by decide)).mpr
    ⟨[7], rfl, by decide, 7, rfl, by decide⟩

/-- Lowercasing never produces an ASCII upper-case letter. -/
theorem lowerChar_not_upper (c : Char) :
    (65 ≤ (lowerChar c).toNat && (lowerChar c).toNat ≤ 90) = false := by
  unfold lowerChar
  split_ifs with h
  · obtain ⟨h1, h2⟩ := h
    have hv : Nat.isValidChar (c.toNat + 32) := Or.inl (by omega)
    have hval : (Char.ofNat (c.toNat + 32)).toNat = c.toNat + 32 := by
      rw [Char.ofNat, dif_pos hv]
      simp [Char.ofNatAux, Char.toNat, UInt32.ofNat', UInt32.toNat]
    rw [hval]
    simp only [Bool.and_eq_false_iff, decide_eq_false_iff_not, not_le]
    right
    omega
  · simp only [Bool.and_eq_false_iff, decide_eq_false_iff_not, not_le]
    rcases not_and_or.mp h with h | h
    · left; omega
    · right; omega

/-- A lowercased string has no ASCII upper-case letter. -/
theorem hasNoUpper_str_lower (s : String) : hasNoUpper (str_lower s) = true := by
  unfold hasNoUpper str_lower
  dsimp only
  simp only [List.all_eq_true, List.mem_map]
  rintro x ⟨c, hc, rfl⟩
  simp [lowerChar_not_upper c]

/-- A member of a dict after assignment is the assigned pair or an old one. -/
theorem mem_dinsert {m : List (String × String)} {k v : String}
    {p : String × String} (hp : p ∈ dinsert m k v) : p = (k, v) ∨ p ∈ m := by
  unfold dinsert at hp
  split at hp
  · rcases List.mem_map.mp hp with ⟨q, hq, hfq⟩
    split at hfq
    · exact Or.inl hfq.symm
    · exact Or.inr (hfq ▸ hq)
  · rcases List.mem_append.mp hp with h | h
    · exact Or.inr h
    · simp at h
      exact Or.inl h

/-- A left fold preserves any invariant its step preserves. -/
theorem foldl_preserves {α β : Type} (f : β → α → β) (P : β → Prop) :
    ∀ (l : List α) (acc : β), P acc → (∀ b a, P b → P (f b a)) →
      P (List.foldl f acc l) := by
  intro l
  induction l with
  | nil => intro acc h0 _; exact h0
  | cons a l ih => intro acc h0 hstep; exact ih (f acc a) (hstep acc a h0) hstep

/-- Every entry a single CSV file contributes has a lowercased non-empty key
and a non-empty value. -/
theorem load_from_rows_entries (rows : List (List String)) (k v : String)
    (hm : (k, v) ∈ load_from_rows rows) :
    hasNoUpper k = true ∧ k ≠ "" ∧ v ≠ "" := by
  simp only [load_from_rows] at hm
  split at hm
  · refine foldl_preserves _
      (fun m => ∀ q ∈ m, hasNoUpper q.1 = true ∧ q.1 ≠ "" ∧ q.2 ≠ "")
      rows.tail [] (by simp) ?_ (k, v) hm
    intro b a hPb
    dsimp only
    split_ifs with hg
    · intro q hq
      rcases mem_dinsert hq with rfl | hqm
      · exact ⟨hasNoUpper_str_lower _, hg.1, hg.2⟩
      · exact hPb q hqm
    · exact hPb
  · refine foldl_preserves _
      (fun m => ∀ q ∈ m, hasNoUpper q.1 = true ∧ q.1 ≠ "" ∧ q.2 ≠ "")
      rows [] (by simp) ?_ (k, v) hm
    intro b a hPb
    dsimp only
    split_ifs with hlen hg
    · exact hPb
    · intro q hq
      rcases mem_dinsert hq with rfl | hqm
      · exact ⟨hasNoUpper_str_lower _, hg.1, hg.2.1⟩
      · exact hPb q hqm
    · exact hPb

/-- Entry invariant carried through the candidate loop. -/
theorem load_candidates_entries (fs : String → Option (Except Unit (List (List String)))) :
    ∀ (ps : List String) (k v : String), (k, v) ∈ load_candidates fs ps →
      hasNoUpper k = true ∧ k ≠ "" ∧ v ≠ "" := by
  intro ps
  induction ps with
  | nil => intro k v h; simp [load_candidates] at h
  | cons p rest ih =>
      intro k v h
      unfold load_candidates at h
      cases hfs : fs p with
      | none =>
          rw [hfs] at h
          exact ih k v h
      | some r =>
          cases r with
          | error e =>
              rw [hfs] at h
              exact ih k v h
          | ok rows =>
              rw [hfs] at h
              exact load_from_rows_entries rows k v h

/-- When no candidate file exists the loop returns the empty mapping. -/
theorem load_candidates_missing (fs : String → Option (Except Unit (List (List String)))) :
    ∀ ps : List String, (∀ p ∈ ps, fs p = none) → load_candidates fs ps = [] := by
  intro ps
  induction ps with
  | nil => intro _; rfl
  | cons p rest ih =>
      intro h
      unfold load_candidates
      rw [h p (by simp)]
      exact ih (fun q hq => h q (by simp [hq]))

/-- C5 counterexample: the loader returns the mapping of the first candidate
that exists and parses even when that mapping has no entries; a later
candidate that would yield an entry is never consulted, so the result is not
"the mapping from the first candidate that yields at least one entry". -/
theorem mapping_first_existing_file_cex :
    load_response_mapping fsEmptyFirst none = [] ∧
    fsEmptyFirst "DATA/Ticket_map.csv" = some (.ok []) ∧
    load_from_rows ([] : List (List String)) = [] ∧
    fsEmptyFirst "data/Ticket_map.csv" =
      some (.ok [["refund", "Use the refund macro"]]) ∧
    load_from_rows [["refund", "Use the refund macro"]] =
      [("refund", "Use the refund macro")] ∧
    ([] : List (String × String)) ≠ [("refund", "Use the refund macro")] := by
  refine ⟨rfl, rfl, rfl, rfl, rfl, by decide⟩

/-- C5 (amended): the loader tries the candidates in priority order — the
`RESPONSE_MAP_PATH` override first — and returns, exclusively and with no
merging, the mapping of the FIRST candidate that exists and parses without
error (even if that mapping is empty); in every returned mapping all keys
are lowercased and non-empty and all values are non-empty; when no candidate
exists the mapping is empty. -/
theorem load_response_mapping_amended :
    (∀ fs env k v, (k, v) ∈ load_response_mapping fs env →
        hasNoUpper k = true ∧ k ≠ "" ∧ v ≠ "") ∧
    (∀ fs (p : String) rows, p ≠ "" → fs p = some (.ok rows) →
        load_response_mapping fs (some p) = load_from_rows rows) ∧
    (∀ fs env, (∀ p ∈ candidatePaths env, fs p = none) →
        load_response_mapping fs env = []) := by
  refine ⟨?_, ?_, ?_⟩
  · intro fs env k v h
    exact load_candidates_entries fs (candidatePaths env) k v h
  · intro fs p rows hp hfs
    unfold load_response_mapping candidatePaths
    dsimp only
    rw [if_neg hp]
    simp only [List.singleton_append]
    unfold load_candidates
    rw [hfs]
  · intro fs env h
    exact load_candidates_missing fs (candidatePaths env) h

/-- C5 witness: the env override is loaded exclusively. -/
theorem load_response_mapping_amended_inst :
    load_response_mapping fsOverride (some "override.csv") =
      load_from_rows [["refund", "R"]] :=
  load_response_mapping_amended.2.1 fsOverride "override.csv"
    [["refund", "R"]] (by decide) rfl

/-- C8 counterexample: a public comment by an author on the allow-list is
labeled `Support Staff` (with a space), not `SupportStaff` as the claim
states. -/
theorem role_label_has_space_cex :
    (ZendeskClient.build_conversation exTicket [exStaffComment]
        (some [7])).conversation = [⟨"Support Staff", "hello"⟩] ∧
    ("Support Staff" : String) ≠ "SupportStaff" := by
  constructor
  · rfl
  · decide
